import Mathlib

/-!
Shallow embedding of the CMSIS-RTX Event Flags subsystem
(`src/CMSIS/RTOS2/RTX/Source/rtx_evflags.c`) and proofs of the spec's claims.

Machine integers (`uint32_t`) are modelled as `Nat` with explicit 32-bit
masks where overflow or bitwise complement matters.  The scheduler, the
allocator and the event-recorder tracing hooks are external collaborators
(spec section 6); tracing is observational only and is omitted, and thread
wakeups performed through the scheduler are recorded as an explicit output
list of (thread id, wait result) pairs.
-/

namespace RtxEvFlags

/-- Modelled from the spec: kind-tag discriminator value for Event-Flags
control blocks (`osRtxIdEventFlags` from the RTX header, not under src/). -/
def osRtxIdEventFlags : Nat := 3

/-- Modelled from the spec: the Inactive lifecycle state value
(`osRtxObjectInactive` from the RTX header, not under src/). -/
def osRtxObjectInactive : Nat := 0

/-- Modelled from the spec: the Active lifecycle state value
(`osRtxObjectActive` from the RTX header, not under src/). -/
def osRtxObjectActive : Nat := 1

/-- Modelled from the spec: ownership bit marking a subsystem-allocated
control block (`osRtxFlagSystemObject` from the RTX header, not under src/). -/
def osRtxFlagSystemObject : Nat := 1

/-- Modelled from the spec: number of usable event-flag bits
(`osRtxEventFlagsLimit` from the RTX header, not under src/): 31, bit 31
being reserved to distinguish error return codes from flag values. -/
def osRtxEventFlagsLimit : Nat := 31

/-- Modelled from the spec: `osFlagsWaitAll` option bit (CMSIS-RTOS2 header,
not under src/). -/
def osFlagsWaitAll : Nat := 1

/-- Modelled from the spec: `osFlagsNoClear` option bit (CMSIS-RTOS2 header,
not under src/). -/
def osFlagsNoClear : Nat := 2

/-- Modelled from the spec: CMSIS-RTOS2 status code `osOK` (header not
under src/). -/
def osOK : Int := 0

/-- Modelled from the spec: CMSIS-RTOS2 status code `osError` (header not
under src/). -/
def osError : Int := -1

/-- Modelled from the spec: CMSIS-RTOS2 status code `osErrorTimeout`
(header not under src/). -/
def osErrorTimeout : Int := -2

/-- Modelled from the spec: CMSIS-RTOS2 status code `osErrorResource`
(header not under src/). -/
def osErrorResource : Int := -3

/-- Modelled from the spec: CMSIS-RTOS2 status code `osErrorParameter`
(header not under src/). -/
def osErrorParameter : Int := -4

/-- Modelled from the spec: CMSIS-RTOS2 status code `osErrorNoMemory`
(header not under src/). -/
def osErrorNoMemory : Int := -5

/-- Reinterpretation of a C `int32_t` status code as a `uint32_t`, as in
the source's `(uint32_t)osErrorParameter` casts. -/
def toU32 (i : Int) : Nat := (i % (2 ^ 32)).toNat

/-- Bitwise complement on 32-bit words: `~x` of the C source, for
`x < 2^32`. -/
def not32 (x : Nat) : Nat := (2 ^ 32 - 1) ^^^ x

/-- The fields of an RTX thread control block that the Event Flags
subsystem reads or writes: its identity plus the denormalized wait
mask/options stored by `svcRtxEventFlagsWait` (`os_thread_t`, declared in
the RTX header outside src/; field selection modelled from the spec). -/
structure os_thread_t where
  tid           : Nat
  wait_flags    : Nat
  flags_options : Nat
deriving DecidableEq

/-- The Event Flags control block `os_event_flags_t` (header outside src/;
fields as used by `rtx_evflags.c`): kind tag `id`, lifecycle `state`,
ownership `flags`, the flag word `event_flags`, and the intrusive wait
list `thread_list` (in list order, head first). -/
structure os_event_flags_t where
  id          : Nat
  state       : Nat
  flags       : Nat
  event_flags : Nat
  thread_list : List os_thread_t
deriving DecidableEq

/-- `EventFlagsSet` helper (`rtx_evflags.c` lines 35-55):
`ef->event_flags |= flags;` then returns the post-OR value.  Both build
variants (interrupt-mask critical section and `atomic_set32`) have this
sequential meaning. -/
def EventFlagsSet (ef : os_event_flags_t) (flags : Nat) :
    os_event_flags_t × Nat :=
  let event_flags := ef.event_flags ||| flags
  ({ ef with event_flags := event_flags }, event_flags)

/-- `EventFlagsClear` helper (`rtx_evflags.c` lines 61-81): reads the prior
value, then `ef->event_flags &= ~flags;`, returning the prior value. -/
def EventFlagsClear (ef : os_event_flags_t) (flags : Nat) :
    os_event_flags_t × Nat :=
  ({ ef with event_flags := ef.event_flags &&& not32 flags }, ef.event_flags)

/-- `EventFlagsCheck` helper (`rtx_evflags.c` lines 88-126): evaluates the
wait condition against the current flag word; on success with auto-clear
(no `osFlagsNoClear`) performs `ef->event_flags &= ~flags;` and returns the
pre-clear value, on success without auto-clear returns the current value,
on failure returns 0 and leaves the word unchanged. -/
def EventFlagsCheck (ef : os_event_flags_t) (flags options : Nat) :
    os_event_flags_t × Nat :=
  if options &&& osFlagsNoClear = 0 then
    let event_flags := ef.event_flags
    if (options &&& osFlagsWaitAll ≠ 0 ∧ event_flags &&& flags ≠ flags) ∨
       (options &&& osFlagsWaitAll = 0 ∧ event_flags &&& flags = 0) then
      (ef, 0)
    else
      ({ ef with event_flags := event_flags &&& not32 flags }, event_flags)
  else
    let event_flags := ef.event_flags
    if (options &&& osFlagsWaitAll ≠ 0 ∧ event_flags &&& flags ≠ flags) ∨
       (options &&& osFlagsWaitAll = 0 ∧ event_flags &&& flags = 0) then
      (ef, 0)
    else
      (ef, event_flags)

/-- Modelled from the spec: `osRtxThreadListRemove` (scheduler service,
outside src/) unlinks the given thread from the object's wait list. -/
def osRtxThreadListRemove (l : List os_thread_t) (t : os_thread_t) :
    List os_thread_t :=
  match l with
  | [] => []
  | x :: xs => if x.tid = t.tid then xs else x :: osRtxThreadListRemove xs t

/-- Outcome of `osRtxEventFlagsPostProcess`: updated object and the
sequence of (thread id, wait result) wakeups handed to the scheduler. -/
structure PostOut where
  ef      : os_event_flags_t
  wakeups : List (Nat × Nat)
deriving DecidableEq

/-- The wait-list walk of `osRtxEventFlagsPostProcess` (`rtx_evflags.c`
lines 142-153): iterate over a snapshot of the list (the source captures
`thread_next` before any removal), re-check each thread's stored
mask/options, and on success remove the thread and wake it with the check
result via `osRtxThreadWaitExit`. -/
def postProcessLoop (ef : os_event_flags_t) (ts : List os_thread_t)
    (wakeups : List (Nat × Nat)) : PostOut :=
  match ts with
  | [] => ⟨ef, wakeups⟩
  | thread :: rest =>
    let r := EventFlagsCheck ef thread.wait_flags thread.flags_options
    if r.2 ≠ 0 then
      postProcessLoop
        { r.1 with thread_list := osRtxThreadListRemove r.1.thread_list thread }
        rest (wakeups ++ [(thread.tid, r.2)])
    else
      postProcessLoop r.1 rest wakeups

/-- `osRtxEventFlagsPostProcess` (`rtx_evflags.c` lines 133-154): returns
immediately on an Inactive object, otherwise walks the wait list waking
every thread whose condition now holds. -/
def osRtxEventFlagsPostProcess (ef : os_event_flags_t) : PostOut :=
  if ef.state = osRtxObjectInactive then ⟨ef, []⟩
  else postProcessLoop ef ef.thread_list []

/-- Outcome of `svcRtxEventFlagsSet`: updated object (unchanged on
error), the `uint32_t` return value, and the wakeups handed to the
scheduler. -/
structure SetOut where
  ef      : Option os_event_flags_t
  ret     : Nat
  wakeups : List (Nat × Nat)
deriving DecidableEq

/-- The wait-list walk of `svcRtxEventFlagsSet` (`rtx_evflags.c` lines
266-281): like the post-process walk, but additionally maintains the
`event_flags` return variable: on each successful check it is overwritten
with `event_flags0 & ~thread->wait_flags` (auto-clear waiter) or
`event_flags0` (no-clear waiter). -/
def svcSetLoop (ef : os_event_flags_t) (ts : List os_thread_t)
    (event_flags : Nat) (wakeups : List (Nat × Nat)) :
    os_event_flags_t × Nat × List (Nat × Nat) :=
  match ts with
  | [] => (ef, event_flags, wakeups)
  | thread :: rest =>
    let r := EventFlagsCheck ef thread.wait_flags thread.flags_options
    if r.2 ≠ 0 then
      let ev := if thread.flags_options &&& osFlagsNoClear = 0 then
                  r.2 &&& not32 thread.wait_flags
                else r.2
      svcSetLoop
        { r.1 with thread_list := osRtxThreadListRemove r.1.thread_list thread }
        rest ev (wakeups ++ [(thread.tid, r.2)])
    else
      svcSetLoop r.1 rest event_flags wakeups

/-- `svcRtxEventFlagsSet` (`rtx_evflags.c` lines 242-287): validate the
handle, kind tag and flag range, require the Active state, OR the flags in
via `EventFlagsSet`, then walk the wait list waking satisfied threads, and
return the maintained `event_flags` value. -/
def svcRtxEventFlagsSet (efo : Option os_event_flags_t) (flags : Nat) :
    SetOut :=
  match efo with
  | none => ⟨none, toU32 osErrorParameter, []⟩
  | some ef =>
    if ef.id ≠ osRtxIdEventFlags ∨
       flags &&& not32 ((1 <<< osRtxEventFlagsLimit) - 1) ≠ 0 then
      ⟨some ef, toU32 osErrorParameter, []⟩
    else if ef.state = osRtxObjectInactive then
      ⟨some ef, toU32 osErrorResource, []⟩
    else
      let r := EventFlagsSet ef flags
      let w := svcSetLoop r.1 r.1.thread_list r.2 []
      ⟨some w.1, w.2.1, w.2.2⟩

/-- `svcRtxEventFlagsClear` (`rtx_evflags.c` lines 291-314): validate,
require Active, then `EventFlagsClear`, returning the prior value.
Result: (updated object, `uint32_t` return value). -/
def svcRtxEventFlagsClear (efo : Option os_event_flags_t) (flags : Nat) :
    Option os_event_flags_t × Nat :=
  match efo with
  | none => (none, toU32 osErrorParameter)
  | some ef =>
    if ef.id ≠ osRtxIdEventFlags ∨
       flags &&& not32 ((1 <<< osRtxEventFlagsLimit) - 1) ≠ 0 then
      (some ef, toU32 osErrorParameter)
    else if ef.state = osRtxObjectInactive then
      (some ef, toU32 osErrorResource)
    else
      let r := EventFlagsClear ef flags
      (some r.1, r.2)

/-- `svcRtxEventFlagsGet` (`rtx_evflags.c` lines 318-336): returns 0 on a
null or wrongly-tagged handle and on an Inactive object, otherwise the
current flag word.  It never mutates the object. -/
def svcRtxEventFlagsGet (efo : Option os_event_flags_t) : Nat :=
  match efo with
  | none => 0
  | some ef =>
    if ef.id ≠ osRtxIdEventFlags then 0
    else if ef.state = osRtxObjectInactive then 0
    else ef.event_flags

/-- Outcome of `svcRtxEventFlagsWait`: updated object, `uint32_t` return
value, the (possibly updated) running thread, and whether the thread was
appended to the object's wait list. -/
structure WaitOut where
  ef      : Option os_event_flags_t
  ret     : Nat
  thread  : Option os_thread_t
  blocked : Bool
deriving DecidableEq

/-- `svcRtxEventFlagsWait` (`rtx_evflags.c` lines 340-390).  The running
thread is an explicit input (`osRtxThreadGetRunning`, scheduler service
outside src/: `none` means the kernel is not running).  `waitEnterOk`
models the boolean result of the scheduler's `osRtxThreadWaitEnter`.  On an
unmet condition with nonzero timeout the thread stores its mask and the
low 8 bits of the options (the `(uint8_t)options` cast of line 375) and is
appended to the wait list (FIFO by arrival, modelled from the spec for the
scheduler service `osRtxThreadListPut` outside src/). -/
def svcRtxEventFlagsWait (efo : Option os_event_flags_t)
    (running : Option os_thread_t) (flags options timeout : Nat)
    (waitEnterOk : Bool) : WaitOut :=
  match running with
  | none => ⟨efo, toU32 osError, none, false⟩
  | some rt =>
    match efo with
    | none => ⟨none, toU32 osErrorParameter, some rt, false⟩
    | some ef =>
      if ef.id ≠ osRtxIdEventFlags ∨
         flags &&& not32 ((1 <<< osRtxEventFlagsLimit) - 1) ≠ 0 then
        ⟨some ef, toU32 osErrorParameter, some rt, false⟩
      else if ef.state = osRtxObjectInactive then
        ⟨some ef, toU32 osErrorResource, some rt, false⟩
      else
        let r := EventFlagsCheck ef flags options
        if r.2 ≠ 0 then
          ⟨some r.1, r.2, some rt, false⟩
        else if timeout ≠ 0 then
          let rt1 := { rt with wait_flags := flags,
                               flags_options := options % 256 }
          if waitEnterOk then
            ⟨some { r.1 with thread_list := r.1.thread_list ++ [rt1] },
             toU32 osErrorTimeout, some rt1, true⟩
          else
            ⟨some r.1, toU32 osErrorTimeout, some rt1, false⟩
        else
          ⟨some r.1, toU32 osErrorResource, some rt, false⟩

/-- Outcome of `svcRtxEventFlagsDelete`: updated object, `osStatus_t`
return value, the forced wakeups, and whether the control-block memory
was freed. -/
structure DeleteOut where
  ef      : Option os_event_flags_t
  status  : Int
  wakeups : List (Nat × Nat)
  freed   : Bool
deriving DecidableEq

/-- The drain loop of `svcRtxEventFlagsDelete` (`rtx_evflags.c` lines
414-420): repeatedly take the wait-list head (`osRtxThreadListGet`,
scheduler service outside src/, modelled from the spec as removing the
head) and wake it with `(uint32_t)osErrorResource`. -/
def deleteDrain (ts : List os_thread_t) : List (Nat × Nat) :=
  match ts with
  | [] => []
  | thread :: rest => (thread.tid, toU32 osErrorResource) :: deleteDrain rest

/-- `svcRtxEventFlagsDelete` (`rtx_evflags.c` lines 394-434): validate,
require Active, mark the object Inactive, drain the wait list waking every
thread with a resource error, and free the control block only when it
carries `osRtxFlagSystemObject`. -/
def svcRtxEventFlagsDelete (efo : Option os_event_flags_t) : DeleteOut :=
  match efo with
  | none => ⟨none, osErrorParameter, [], false⟩
  | some ef =>
    if ef.id ≠ osRtxIdEventFlags then
      ⟨some ef, osErrorParameter, [], false⟩
    else if ef.state = osRtxObjectInactive then
      ⟨some ef, osErrorResource, [], false⟩
    else
      let ef1 := { ef with state := osRtxObjectInactive }
      let wakeups := deleteDrain ef1.thread_list
      let ef2 := { ef1 with thread_list := [] }
      ⟨some ef2, osOK, wakeups,
       decide (ef2.flags &&& osRtxFlagSystemObject ≠ 0)⟩

/-- Outcome of `isrRtxEventFlagsSet`: updated object, `uint32_t` return
value, and whether the object was registered for deferred post-processing
(`osRtxPostProcess`, scheduler service outside src/). -/
structure IsrSetOut where
  ef         : Option os_event_flags_t
  ret        : Nat
  registered : Bool
deriving DecidableEq

/-- `isrRtxEventFlagsSet` (`rtx_evflags.c` lines 450-477): same
validation as the thread-context Set, ORs the flags in, registers the
object for deferred post-processing instead of walking the wait list, and
returns the post-OR value. -/
def isrRtxEventFlagsSet (efo : Option os_event_flags_t) (flags : Nat) :
    IsrSetOut :=
  match efo with
  | none => ⟨none, toU32 osErrorParameter, false⟩
  | some ef =>
    if ef.id ≠ osRtxIdEventFlags ∨
       flags &&& not32 ((1 <<< osRtxEventFlagsLimit) - 1) ≠ 0 then
      ⟨some ef, toU32 osErrorParameter, false⟩
    else if ef.state = osRtxObjectInactive then
      ⟨some ef, toU32 osErrorResource, false⟩
    else
      let r := EventFlagsSet ef flags
      ⟨some r.1, r.2, true⟩

/-- The attribute structure `osEventFlagsAttr_t` (CMSIS-RTOS2 header
outside src/) as used by `svcRtxEventFlagsNew`: optional name, optional
caller-supplied control-block memory (modelled by its address), and the
control-block size field. -/
structure osEventFlagsAttr_t where
  name    : Option String
  cb_mem  : Option Nat
  cb_size : Nat
deriving DecidableEq

/-- Modelled from the spec: `sizeof(os_event_flags_t)` (layout defined in
the RTX header outside src/); only its positivity matters here. -/
def sizeof_os_event_flags_t : Nat := 16

/-- Result of `svcRtxEventFlagsNew`: a created Active object (with a flag
telling whether its memory was subsystem-allocated), an
invalid-control-block error, or an out-of-memory error. -/
inductive NewOut where
  | created (ef : os_event_flags_t) (allocated : Bool)
  | errInvalidCB
  | errNoMemory
deriving DecidableEq

/-- `svcRtxEventFlagsNew` (`rtx_evflags.c` lines 161-216): validate the
optional attributes (an aligned, large-enough caller control block, or a
null control block with zero size), allocate from the pool/heap when no
block was supplied (`allocOk` models allocation success), and initialize
the control block Active with a zero flag word and empty wait list.  The
second component of the result tells whether an allocation was attempted. -/
def svcRtxEventFlagsNew (attr : Option osEventFlagsAttr_t) (allocOk : Bool) :
    NewOut × Bool :=
  let init : Nat → os_event_flags_t := fun fl =>
    { id := osRtxIdEventFlags, state := osRtxObjectActive, flags := fl,
      event_flags := 0, thread_list := [] }
  match attr with
  | some a =>
    match a.cb_mem with
    | some addr =>
      if addr &&& 3 ≠ 0 ∨ a.cb_size < sizeof_os_event_flags_t then
        (NewOut.errInvalidCB, false)
      else
        (NewOut.created (init 0) false, false)
    | none =>
      if a.cb_size ≠ 0 then (NewOut.errInvalidCB, false)
      else if allocOk then
        (NewOut.created (init osRtxFlagSystemObject) true, true)
      else (NewOut.errNoMemory, true)
  | none =>
    if allocOk then (NewOut.created (init osRtxFlagSystemObject) true, true)
    else (NewOut.errNoMemory, true)

/-! ### Helper lemmas about `EventFlagsCheck` -/

theorem check_id (ef : os_event_flags_t) (flags options : Nat) :
    (EventFlagsCheck ef flags options).1.id = ef.id := by
  simp only [EventFlagsCheck]
  split_ifs <;> rfl

theorem check_state (ef : os_event_flags_t) (flags options : Nat) :
    (EventFlagsCheck ef flags options).1.state = ef.state := by
  simp only [EventFlagsCheck]
  split_ifs <;> rfl

theorem check_flags_field (ef : os_event_flags_t) (flags options : Nat) :
    (EventFlagsCheck ef flags options).1.flags = ef.flags := by
  simp only [EventFlagsCheck]
  split_ifs <;> rfl

theorem check_thread_list (ef : os_event_flags_t) (flags options : Nat) :
    (EventFlagsCheck ef flags options).1.thread_list = ef.thread_list := by
  simp only [EventFlagsCheck]
  split_ifs <;> rfl

theorem check_ret_val (ef : os_event_flags_t) (flags options : Nat)
    (h : (EventFlagsCheck ef flags options).2 ≠ 0) :
    (EventFlagsCheck ef flags options).2 = ef.event_flags := by
  simp only [EventFlagsCheck] at h ⊢
  split_ifs at h ⊢ <;> first | rfl | exact absurd rfl h

theorem check_ef_of_ret_nonzero (ef : os_event_flags_t) (flags options : Nat)
    (h : (EventFlagsCheck ef flags options).2 ≠ 0) :
    (EventFlagsCheck ef flags options).1.event_flags =
      if options &&& osFlagsNoClear = 0 then ef.event_flags &&& not32 flags
      else ef.event_flags := by
  simp only [EventFlagsCheck] at h ⊢
  split_ifs at h ⊢ <;> first | rfl | exact absurd rfl h

theorem check_ef_of_ret_zero (ef : os_event_flags_t) (flags options : Nat)
    (h : (EventFlagsCheck ef flags options).2 = 0) :
    (EventFlagsCheck ef flags options).1.event_flags = ef.event_flags := by
  simp only [EventFlagsCheck] at h ⊢
  split_ifs at h ⊢ <;> first | rfl | (show ef.event_flags &&& not32 flags = ef.event_flags; rw [show ef.event_flags = 0 from h]; simp)

theorem check_ef_le (ef : os_event_flags_t) (flags options : Nat) :
    (EventFlagsCheck ef flags options).1.event_flags ≤ ef.event_flags := by
  simp only [EventFlagsCheck]
  split_ifs <;> first | exact Nat.le_refl _ | exact Nat.and_le_left

/-! ### Loop lemmas -/

theorem svcSetLoop_ret_eq (ts : List os_thread_t) :
    ∀ (ef : os_event_flags_t) (ev : Nat) (wk : List (Nat × Nat)),
      ev = ef.event_flags →
      (svcSetLoop ef ts ev wk).2.1 = (svcSetLoop ef ts ev wk).1.event_flags := by
  induction ts with
  | nil =>
    intro ef ev wk hev
    simpa [svcSetLoop] using hev
  | cons t rest ih =>
    intro ef ev wk hev
    simp only [svcSetLoop]
    by_cases h : (EventFlagsCheck ef t.wait_flags t.flags_options).2 ≠ 0
    · rw [if_pos h]
      apply ih
      have h1 := check_ret_val ef t.wait_flags t.flags_options h
      have h2 := check_ef_of_ret_nonzero ef t.wait_flags t.flags_options h
      simp only [h1, h2]
    · rw [if_neg h]
      apply ih
      rw [hev]
      have h0 : (EventFlagsCheck ef t.wait_flags t.flags_options).2 = 0 := by
        by_contra hc
        exact h hc
      exact (check_ef_of_ret_zero ef t.wait_flags t.flags_options h0).symm

theorem svcSetLoop_eq_post (ts : List os_thread_t) :
    ∀ (ef : os_event_flags_t) (ev : Nat) (wk : List (Nat × Nat)),
      (svcSetLoop ef ts ev wk).1 = (postProcessLoop ef ts wk).ef ∧
      (svcSetLoop ef ts ev wk).2.2 = (postProcessLoop ef ts wk).wakeups := by
  induction ts with
  | nil =>
    intro ef ev wk
    exact ⟨rfl, rfl⟩
  | cons t rest ih =>
    intro ef ev wk
    simp only [svcSetLoop, postProcessLoop]
    by_cases h : (EventFlagsCheck ef t.wait_flags t.flags_options).2 ≠ 0
    · rw [if_pos h, if_pos h]
      exact ih _ _ _
    · rw [if_neg h, if_neg h]
      exact ih _ _ _

theorem svcSetLoop_ef_le (ts : List os_thread_t) :
    ∀ (ef : os_event_flags_t) (ev : Nat) (wk : List (Nat × Nat)),
      (svcSetLoop ef ts ev wk).1.event_flags ≤ ef.event_flags := by
  induction ts with
  | nil =>
    intro ef ev wk
    exact Nat.le_refl _
  | cons t rest ih =>
    intro ef ev wk
    simp only [svcSetLoop]
    by_cases h : (EventFlagsCheck ef t.wait_flags t.flags_options).2 ≠ 0
    · rw [if_pos h]
      exact le_trans (ih _ _ _) (check_ef_le ef t.wait_flags t.flags_options)
    · rw [if_neg h]
      exact le_trans (ih _ _ _) (check_ef_le ef t.wait_flags t.flags_options)

/-! ### Bit-level lemmas about the 31-bit flag range -/

theorem highMask_eq : not32 ((1 <<< osRtxEventFlagsLimit) - 1) = 2 ^ 31 := by
  decide

theorem land_highMask_eq_zero {f : Nat} (h : f < 2 ^ 31) :
    f &&& not32 ((1 <<< osRtxEventFlagsLimit) - 1) = 0 := by
  rw [highMask_eq, Nat.and_two_pow, Nat.testBit_lt_two_pow h]
  rfl

theorem and_not32_and_self {x f : Nat} (h : f < 2 ^ 32) :
    (x &&& not32 f) &&& f = 0 := by
  apply Nat.eq_of_testBit_eq
  intro i
  simp only [Nat.testBit_and, not32, Nat.testBit_xor, Nat.zero_testBit]
  by_cases hf : f.testBit i
  · have hi : i < 32 := by
      by_contra hge
      have hle : (2 : Nat) ^ 32 ≤ 2 ^ i := Nat.pow_le_pow_right (by norm_num) (by omega)
      have : f.testBit i = false := Nat.testBit_lt_two_pow (lt_of_lt_of_le h hle)
      simp [this] at hf
    have hm : Nat.testBit (2 ^ 32 - 1) i = true := by
      rw [Nat.testBit_two_pow_sub_one]
      simp [hi]
    have hm4 : Nat.testBit 4294967295 i = true := by
      have he : (4294967295 : Nat) = 2 ^ 32 - 1 := by norm_num
      rw [he]
      exact hm
    simp [hf, hm, hm4]
  · simp [hf]

/-- The wait-condition of the spec: with `wait_all` (the `osFlagsWaitAll`
option bit) the condition holds when `(flag_word & flags) == flags`, and
with wait-any when `(flag_word & flags) != 0`. -/
def waitCondHolds (ev flags options : Nat) : Prop :=
  (options &&& osFlagsWaitAll ≠ 0 → ev &&& flags = flags) ∧
  (options &&& osFlagsWaitAll = 0 → ev &&& flags ≠ 0)

instance (ev flags options : Nat) : Decidable (waitCondHolds ev flags options) := by
  unfold waitCondHolds
  infer_instance

theorem check_succeeds (ef : os_event_flags_t) (flags options : Nat)
    (h : waitCondHolds ef.event_flags flags options) :
    EventFlagsCheck ef flags options =
      if options &&& osFlagsNoClear = 0 then
        ({ ef with event_flags := ef.event_flags &&& not32 flags },
         ef.event_flags)
      else (ef, ef.event_flags) := by
  obtain ⟨ha, hb⟩ := h
  have hfail : ¬ ((options &&& osFlagsWaitAll ≠ 0 ∧
      ef.event_flags &&& flags ≠ flags) ∨
      (options &&& osFlagsWaitAll = 0 ∧ ef.event_flags &&& flags = 0)) := by
    rintro (⟨hw, hne⟩ | ⟨hw, heq⟩)
    · exact hne (ha hw)
    · exact hb hw heq
  simp only [EventFlagsCheck]
  by_cases hnc : options &&& osFlagsNoClear = 0
  · rw [if_pos hnc, if_neg hfail, if_pos hnc]
  · rw [if_neg hnc, if_neg hfail, if_neg hnc]

theorem check_fails (ef : os_event_flags_t) (flags options : Nat)
    (h : ¬ waitCondHolds ef.event_flags flags options) :
    EventFlagsCheck ef flags options = (ef, 0) := by
  have hfail : (options &&& osFlagsWaitAll ≠ 0 ∧
      ef.event_flags &&& flags ≠ flags) ∨
      (options &&& osFlagsWaitAll = 0 ∧ ef.event_flags &&& flags = 0) := by
    by_cases hw : options &&& osFlagsWaitAll = 0
    · by_cases hz : ef.event_flags &&& flags = 0
      · exact Or.inr ⟨hw, hz⟩
      · exact absurd ⟨fun hw' => absurd hw hw', fun _ => hz⟩ h
    · by_cases heq : ef.event_flags &&& flags = flags
      · exact absurd ⟨fun _ => heq, fun hw' => absurd hw' hw⟩ h
      · exact Or.inl ⟨hw, heq⟩
  simp only [EventFlagsCheck]
  by_cases hnc : options &&& osFlagsNoClear = 0
  · rw [if_pos hnc, if_pos hfail]
  · rw [if_neg hnc, if_pos hfail]

theorem testBit_and_not32 {x f : Nat} (hx : x < 2 ^ 32) (i : Nat) :
    (x &&& not32 f).testBit i = (x.testBit i && !(f.testBit i)) := by
  by_cases hi : i < 32
  · simp only [Nat.testBit_and, not32, Nat.testBit_xor]
    have hm : Nat.testBit (2 ^ 32 - 1) i = true := by
      rw [Nat.testBit_two_pow_sub_one]
      simp [hi]
    rw [hm]
    cases f.testBit i <;> cases x.testBit i <;> rfl
  · have hle : (2 : Nat) ^ 32 ≤ 2 ^ i := Nat.pow_le_pow_right (by norm_num) (by omega)
    have hxi : x.testBit i = false := Nat.testBit_lt_two_pow (lt_of_lt_of_le hx hle)
    simp only [Nat.testBit_and, hxi, Bool.false_and]

/-! ### Claim C3 -/

/-- C3: `EventFlagsCheck` succeeds exactly when `(flag_word & flags) == flags`
under `wait_all` and `(flag_word & flags) != 0` under wait-any; on success
with auto-clear it clears exactly the matched bits (a bit survives iff it
was set and not requested) and returns the value that satisfied the
condition, on success without auto-clear it leaves the flag word unchanged,
and on failure it returns 0 and leaves the object unchanged. -/
theorem C3_check_correct (ef : os_event_flags_t) (flags options : Nat)
    (hev : ef.event_flags < 2 ^ 32) :
    (waitCondHolds ef.event_flags flags options →
      (EventFlagsCheck ef flags options).2 = ef.event_flags ∧
      (options &&& osFlagsNoClear = 0 →
        ∀ i, (EventFlagsCheck ef flags options).1.event_flags.testBit i =
          (ef.event_flags.testBit i && !(flags.testBit i))) ∧
      (options &&& osFlagsNoClear ≠ 0 →
        (EventFlagsCheck ef flags options).1.event_flags = ef.event_flags)) ∧
    (¬ waitCondHolds ef.event_flags flags options →
      (EventFlagsCheck ef flags options).2 = 0 ∧
      (EventFlagsCheck ef flags options).1 = ef) := by
  constructor
  · intro hcond
    rw [check_succeeds ef flags options hcond]
    by_cases hnc : options &&& osFlagsNoClear = 0
    · rw [if_pos hnc]
      refine ⟨rfl, fun _ i => ?_, fun hnc2 => absurd hnc hnc2⟩
      exact testBit_and_not32 hev i
    · rw [if_neg hnc]
      exact ⟨rfl, fun hnc2 => absurd hnc2 hnc, fun _ => rfl⟩
  · intro hcond
    rw [check_fails ef flags options hcond]
    exact ⟨rfl, rfl⟩

/-- Witness for C3 at flag_word `0b101`, flags `0b101`, `wait_all` with
auto-clear: the check succeeds, returns `0b101`, and clears both bits. -/
theorem C3_check_correct_witness :
    let ef : os_event_flags_t := ⟨3, 1, 0, 5, []⟩
    ef.event_flags < 2 ^ 32 ∧ waitCondHolds ef.event_flags 5 1 ∧
    (EventFlagsCheck ef 5 1).2 = 5 ∧
    (EventFlagsCheck ef 5 1).1.event_flags.testBit 0 =
      (Nat.testBit 5 0 && !(Nat.testBit 5 0)) := by
  refine ⟨by norm_num, by decide, ?_, ?_⟩
  · exact ((C3_check_correct ⟨3, 1, 0, 5, []⟩ 5 1 (by norm_num)).1
      (by decide)).1
  · exact (((C3_check_correct ⟨3, 1, 0, 5, []⟩ 5 1 (by norm_num)).1
      (by decide)).2.1 (by decide) 0)

/-! ### Claim C6 -/

/-- C6: on an Active object, a thread-context Wait with timeout 0 whose
condition is not met returns a resource error immediately, leaves the
object (including its wait list and flag word) unchanged, does not block
and does not store any wait mask/options on the calling thread. -/
theorem C6_wait_zero_timeout (ef : os_event_flags_t) (rt : os_thread_t)
    (flags options : Nat) (weOk : Bool)
    (hid : ef.id = osRtxIdEventFlags)
    (hact : ef.state ≠ osRtxObjectInactive)
    (hfl : flags < 2 ^ 31)
    (hcond : ¬ waitCondHolds ef.event_flags flags options) :
    svcRtxEventFlagsWait (some ef) (some rt) flags options 0 weOk =
      ⟨some ef, toU32 osErrorResource, some rt, false⟩ := by
  have hmask := land_highMask_eq_zero hfl
  have hchk := check_fails ef flags options hcond
  simp only [svcRtxEventFlagsWait]
  rw [if_neg (by
    rintro (h | h)
    · exact h hid
    · exact h hmask)]
  rw [if_neg hact, hchk]
  simp

/-- Witness for C6: a thread waits for flag `0b10` (wait-any, auto-clear)
on an Active object whose flag word is `0b01`. -/
theorem C6_wait_zero_timeout_witness :
    let ef : os_event_flags_t := ⟨3, 1, 0, 1, []⟩
    ef.id = osRtxIdEventFlags ∧ ef.state ≠ osRtxObjectInactive ∧
    (2 : Nat) < 2 ^ 31 ∧ ¬ waitCondHolds ef.event_flags 2 0 ∧
    svcRtxEventFlagsWait (some ef) (some ⟨7, 0, 0⟩) 2 0 0 true =
      ⟨some ef, toU32 osErrorResource, some ⟨7, 0, 0⟩, false⟩ := by
  refine ⟨rfl, by decide, by norm_num, by decide, ?_⟩
  exact C6_wait_zero_timeout ⟨3, 1, 0, 1, []⟩ ⟨7, 0, 0⟩ 2 0 true rfl
    (by decide) (by norm_num) (by decide)

/-! ### Claims C8, C9, C10 -/

theorem svcSet_no_waiters (ef : os_event_flags_t) (f : Nat)
    (hid : ef.id = osRtxIdEventFlags)
    (hact : ef.state ≠ osRtxObjectInactive)
    (hlist : ef.thread_list = [])
    (hf : f < 2 ^ 31) :
    svcRtxEventFlagsSet (some ef) f =
      ⟨some { ef with event_flags := ef.event_flags ||| f },
       ef.event_flags ||| f, []⟩ := by
  have hmask := land_highMask_eq_zero hf
  simp only [svcRtxEventFlagsSet, EventFlagsSet]
  rw [if_neg (by
    rintro (h | h)
    · exact h hid
    · exact h hmask)]
  rw [if_neg hact]
  simp only [hlist, svcSetLoop]

/-- C8: for all flag masks `f1, f2 < 2^31`, on an Active object with an
empty wait list and flag word 0, `Set(f1)` then `Set(f2)` makes a
subsequent `Get` return `f1 ||| f2`. -/
theorem C8_set_set_get (ef : os_event_flags_t) (f1 f2 : Nat)
    (hid : ef.id = osRtxIdEventFlags)
    (hact : ef.state ≠ osRtxObjectInactive)
    (hlist : ef.thread_list = [])
    (hev : ef.event_flags = 0)
    (h1 : f1 < 2 ^ 31) (h2 : f2 < 2 ^ 31) :
    svcRtxEventFlagsGet
      ((svcRtxEventFlagsSet ((svcRtxEventFlagsSet (some ef) f1).ef) f2).ef) =
      f1 ||| f2 := by
  rw [svcSet_no_waiters ef f1 hid hact hlist h1]
  dsimp only
  rw [svcSet_no_waiters { ef with event_flags := ef.event_flags ||| f1 } f2
    hid hact hlist h2]
  dsimp only
  simp only [svcRtxEventFlagsGet]
  rw [if_neg (by simpa using hid), if_neg hact]
  simp [hev]

/-- Witness for C8 with `f1 = 0b101`, `f2 = 0b011`. -/
theorem C8_set_set_get_witness :
    let ef : os_event_flags_t := ⟨3, 1, 0, 0, []⟩
    svcRtxEventFlagsGet
      ((svcRtxEventFlagsSet ((svcRtxEventFlagsSet (some ef) 5).ef) 3).ef) =
      5 ||| 3 :=
  C8_set_set_get ⟨3, 1, 0, 0, []⟩ 5 3 rfl (by decide) rfl rfl
    (by norm_num) (by norm_num)

/-- C9: for every Active object and flags value `f < 2^31`, `Clear(f)`
returns the value the flag word held immediately before the clear, and a
`Get` immediately afterwards satisfies `Get() & f == 0`. -/
theorem C9_clear_correct (ef : os_event_flags_t) (f : Nat)
    (hid : ef.id = osRtxIdEventFlags)
    (hact : ef.state ≠ osRtxObjectInactive)
    (hf : f < 2 ^ 31) :
    (svcRtxEventFlagsClear (some ef) f).2 = ef.event_flags ∧
    svcRtxEventFlagsGet (svcRtxEventFlagsClear (some ef) f).1 &&& f = 0 := by
  have hmask := land_highMask_eq_zero hf
  have hrun : svcRtxEventFlagsClear (some ef) f =
      (some { ef with event_flags := ef.event_flags &&& not32 f },
       ef.event_flags) := by
    simp only [svcRtxEventFlagsClear, EventFlagsClear]
    rw [if_neg (by
      rintro (h | h)
      · exact h hid
      · exact h hmask)]
    rw [if_neg hact]
  rw [hrun]
  refine ⟨rfl, ?_⟩
  simp only [svcRtxEventFlagsGet]
  rw [if_neg (by simpa using hid), if_neg hact]
  exact and_not32_and_self (lt_trans hf (by norm_num))

/-- Witness for C9 at flag word `0b111`, clearing `0b101`. -/
theorem C9_clear_correct_witness :
    let ef : os_event_flags_t := ⟨3, 1, 0, 7, []⟩
    (svcRtxEventFlagsClear (some ef) 5).2 = 7 ∧
    svcRtxEventFlagsGet (svcRtxEventFlagsClear (some ef) 5).1 &&& 5 = 0 :=
  C9_clear_correct ⟨3, 1, 0, 7, []⟩ 5 rfl (by decide) (by norm_num)

/-- C10: Create called with attributes whose control-block pointer is null
but whose control-block size is nonzero fails with the
invalid-control-block error and creates nothing: the allocator is never
called (second component `false`) and no Active object is produced. -/
theorem C10_new_null_cb_nonzero_size (a : osEventFlagsAttr_t)
    (allocOk : Bool) (hmem : a.cb_mem = none) (hsz : a.cb_size ≠ 0) :
    svcRtxEventFlagsNew (some a) allocOk = (NewOut.errInvalidCB, false) := by
  simp only [svcRtxEventFlagsNew, hmem]
  rw [if_pos hsz]

/-- Witness for C10 with size field 8 and no control-block memory. -/
theorem C10_new_null_cb_nonzero_size_witness :
    svcRtxEventFlagsNew (some ⟨none, none, 8⟩) true =
      (NewOut.errInvalidCB, false) :=
  C10_new_null_cb_nonzero_size ⟨none, none, 8⟩ true rfl (by decide)

/-! ### Claim C1 -/

theorem svcSet_active (ef : os_event_flags_t) (flags : Nat)
    (hid : ef.id = osRtxIdEventFlags)
    (hact : ef.state ≠ osRtxObjectInactive)
    (hf : flags < 2 ^ 31) :
    svcRtxEventFlagsSet (some ef) flags =
      ⟨some (svcSetLoop { ef with event_flags := ef.event_flags ||| flags }
          ef.thread_list (ef.event_flags ||| flags) []).1,
       (svcSetLoop { ef with event_flags := ef.event_flags ||| flags }
          ef.thread_list (ef.event_flags ||| flags) []).2.1,
       (svcSetLoop { ef with event_flags := ef.event_flags ||| flags }
          ef.thread_list (ef.event_flags ||| flags) []).2.2⟩ := by
  have hmask := land_highMask_eq_zero hf
  simp only [svcRtxEventFlagsSet, EventFlagsSet]
  rw [if_neg (by
    rintro (h | h)
    · exact h hid
    · exact h hmask)]
  rw [if_neg hact]

/-- C1 counterexample: on an Active object with flag word 0 and one
auto-clear waiter on flag `0b1`, thread-context Set of `0b1` returns 0,
not the post-set (post-OR) value `0b1` of the flag word. -/
theorem C1_counterexample :
    (svcRtxEventFlagsSet
        (some ⟨osRtxIdEventFlags, osRtxObjectActive, 0, 0, [⟨0, 1, 0⟩]⟩)
        1).ret ≠
      (0 : Nat) ||| 1 := by
  decide

/-- C1 (amended): thread-context Set ORs the flags into the flag word and
returns the value the flag word holds when Set completes, i.e. after the
satisfied waiters' auto-clear adjustments; with no waiters on the list
this is exactly the post-OR value. -/
theorem C1_set_returns_final_value (ef : os_event_flags_t) (flags : Nat)
    (hid : ef.id = osRtxIdEventFlags)
    (hact : ef.state ≠ osRtxObjectInactive)
    (hf : flags < 2 ^ 31) :
    (∀ ef1, (svcRtxEventFlagsSet (some ef) flags).ef = some ef1 →
      (svcRtxEventFlagsSet (some ef) flags).ret = ef1.event_flags) ∧
    (ef.thread_list = [] →
      (svcRtxEventFlagsSet (some ef) flags).ret =
        ef.event_flags ||| flags) := by
  rw [svcSet_active ef flags hid hact hf]
  constructor
  · intro ef1 h1
    dsimp only at h1 ⊢
    rw [← Option.some.inj h1]
    exact svcSetLoop_ret_eq ef.thread_list _ _ [] rfl
  · intro hl
    dsimp only
    rw [hl]
    rfl

/-- Witness for C1 (amended): with one auto-clear waiter on `0b1`, Set of
`0b1` ends with flag word 0 and returns 0; with no waiters the post-OR
value is returned. -/
theorem C1_set_returns_final_value_witness :
    ((svcRtxEventFlagsSet
        (some ⟨osRtxIdEventFlags, osRtxObjectActive, 0, 0, [⟨0, 1, 0⟩]⟩)
        1).ef = some ⟨osRtxIdEventFlags, osRtxObjectActive, 0, 0, []⟩ ∧
     (svcRtxEventFlagsSet
        (some ⟨osRtxIdEventFlags, osRtxObjectActive, 0, 0, [⟨0, 1, 0⟩]⟩)
        1).ret =
       (⟨osRtxIdEventFlags, osRtxObjectActive, 0, 0, []⟩ :
         os_event_flags_t).event_flags) ∧
    (svcRtxEventFlagsSet
        (some ⟨osRtxIdEventFlags, osRtxObjectActive, 0, 2, []⟩) 1).ret =
      2 ||| 1 := by
  refine ⟨⟨by decide, ?_⟩, ?_⟩
  · exact (C1_set_returns_final_value
      ⟨osRtxIdEventFlags, osRtxObjectActive, 0, 0, [⟨0, 1, 0⟩]⟩ 1 rfl
      (by decide) (by norm_num)).1
      ⟨osRtxIdEventFlags, osRtxObjectActive, 0, 0, []⟩ (by decide)
  · exact (C1_set_returns_final_value
      ⟨osRtxIdEventFlags, osRtxObjectActive, 0, 2, []⟩ 1 rfl
      (by decide) (by norm_num)).2 rfl

/-! ### Claim C2 -/

/-- C2: interrupt-context Set (which only mutates the flag word and
registers the object for deferred post-processing) followed by the
post-processing callback yields exactly the same outcome as a
thread-context Set on the same starting state: the same final object
(flag word and wait list) and the same wakeups, each woken thread with
the same wait-result value. -/
theorem C2_isr_set_refines_svc_set (ef : os_event_flags_t) (flags : Nat)
    (hid : ef.id = osRtxIdEventFlags)
    (hact : ef.state ≠ osRtxObjectInactive)
    (hf : flags < 2 ^ 31) :
    (isrRtxEventFlagsSet (some ef) flags).ef =
      some { ef with event_flags := ef.event_flags ||| flags } ∧
    (isrRtxEventFlagsSet (some ef) flags).registered = true ∧
    (svcRtxEventFlagsSet (some ef) flags).ef =
      some (osRtxEventFlagsPostProcess
        { ef with event_flags := ef.event_flags ||| flags }).ef ∧
    (svcRtxEventFlagsSet (some ef) flags).wakeups =
      (osRtxEventFlagsPostProcess
        { ef with event_flags := ef.event_flags ||| flags }).wakeups := by
  have hmask := land_highMask_eq_zero hf
  have hisr : isrRtxEventFlagsSet (some ef) flags =
      ⟨some { ef with event_flags := ef.event_flags ||| flags },
       ef.event_flags ||| flags, true⟩ := by
    simp only [isrRtxEventFlagsSet, EventFlagsSet]
    rw [if_neg (by
      rintro (h | h)
      · exact h hid
      · exact h hmask)]
    rw [if_neg hact]
  have hpost : osRtxEventFlagsPostProcess
      { ef with event_flags := ef.event_flags ||| flags } =
      postProcessLoop { ef with event_flags := ef.event_flags ||| flags }
        ef.thread_list [] := by
    simp only [osRtxEventFlagsPostProcess]
    rw [if_neg hact]
  rw [hisr, svcSet_active ef flags hid hact hf, hpost]
  have heq := svcSetLoop_eq_post ef.thread_list
    { ef with event_flags := ef.event_flags ||| flags }
    (ef.event_flags ||| flags) []
  exact ⟨rfl, rfl, congrArg some heq.1, heq.2⟩

/-- Witness for C2: flag word 0, one auto-clear waiter on `0b1`,
Set of `0b1` from interrupt context plus post-processing versus thread
context. -/
theorem C2_isr_set_refines_svc_set_witness :
    (isrRtxEventFlagsSet
        (some ⟨osRtxIdEventFlags, osRtxObjectActive, 0, 0, [⟨4, 1, 0⟩]⟩)
        1).registered = true ∧
    (svcRtxEventFlagsSet
        (some ⟨osRtxIdEventFlags, osRtxObjectActive, 0, 0, [⟨4, 1, 0⟩]⟩)
        1).wakeups =
      (osRtxEventFlagsPostProcess
        { (⟨osRtxIdEventFlags, osRtxObjectActive, 0, 0, [⟨4, 1, 0⟩]⟩ :
            os_event_flags_t) with event_flags := (0 : Nat) ||| 1 }).wakeups := by
  have h := C2_isr_set_refines_svc_set
    ⟨osRtxIdEventFlags, osRtxObjectActive, 0, 0, [⟨4, 1, 0⟩]⟩ 1 rfl
    (by decide) (by norm_num)
  exact ⟨h.2.1, h.2.2.2⟩

/-! ### Claim C4 -/

theorem land_highMask_ne_zero {f : Nat} (h : f.testBit 31 = true) :
    f &&& not32 ((1 <<< osRtxEventFlagsLimit) - 1) ≠ 0 := by
  rw [highMask_eq, Nat.and_two_pow, h]
  norm_num

/-- C4 counterexample: Get on a null object pointer yields 0, which is not
the parameter-error code the claim requires for every public operation. -/
theorem C4_counterexample :
    svcRtxEventFlagsGet none = 0 ∧
    svcRtxEventFlagsGet none ≠ toU32 osErrorParameter := by
  decide

/-- C4 (amended): for Set, Clear, Wait and Delete a null object pointer or
one not carrying the Event-Flags kind tag yields a parameter error; for
the flag-taking operations Set, Clear and Wait a flags value with bit 31
set yields a parameter error; an Inactive object yields a resource error;
Get, which has no error return channel, instead returns 0 in all these
cases.  No erroneous call mutates the object. -/
theorem C4_validation_amended :
    (∀ flags, svcRtxEventFlagsSet none flags =
      ⟨none, toU32 osErrorParameter, []⟩) ∧
    (∀ flags, svcRtxEventFlagsClear none flags =
      (none, toU32 osErrorParameter)) ∧
    (∀ rt flags options timeout weOk,
      svcRtxEventFlagsWait none (some rt) flags options timeout weOk =
        ⟨none, toU32 osErrorParameter, some rt, false⟩) ∧
    (svcRtxEventFlagsDelete none = ⟨none, osErrorParameter, [], false⟩) ∧
    (svcRtxEventFlagsGet none = 0) ∧
    (∀ ef flags, ef.id ≠ osRtxIdEventFlags →
      svcRtxEventFlagsSet (some ef) flags =
        ⟨some ef, toU32 osErrorParameter, []⟩) ∧
    (∀ ef flags, ef.id ≠ osRtxIdEventFlags →
      svcRtxEventFlagsClear (some ef) flags =
        (some ef, toU32 osErrorParameter)) ∧
    (∀ ef rt flags options timeout weOk, ef.id ≠ osRtxIdEventFlags →
      svcRtxEventFlagsWait (some ef) (some rt) flags options timeout weOk =
        ⟨some ef, toU32 osErrorParameter, some rt, false⟩) ∧
    (∀ ef, ef.id ≠ osRtxIdEventFlags →
      svcRtxEventFlagsDelete (some ef) =
        ⟨some ef, osErrorParameter, [], false⟩) ∧
    (∀ ef, ef.id ≠ osRtxIdEventFlags → svcRtxEventFlagsGet (some ef) = 0) ∧
    (∀ ef flags, flags.testBit 31 = true →
      svcRtxEventFlagsSet (some ef) flags =
        ⟨some ef, toU32 osErrorParameter, []⟩) ∧
    (∀ ef flags, flags.testBit 31 = true →
      svcRtxEventFlagsClear (some ef) flags =
        (some ef, toU32 osErrorParameter)) ∧
    (∀ ef rt flags options timeout weOk, flags.testBit 31 = true →
      svcRtxEventFlagsWait (some ef) (some rt) flags options timeout weOk =
        ⟨some ef, toU32 osErrorParameter, some rt, false⟩) ∧
    (∀ ef flags, ef.id = osRtxIdEventFlags → flags < 2 ^ 31 →
      ef.state = osRtxObjectInactive →
      svcRtxEventFlagsSet (some ef) flags =
        ⟨some ef, toU32 osErrorResource, []⟩) ∧
    (∀ ef flags, ef.id = osRtxIdEventFlags → flags < 2 ^ 31 →
      ef.state = osRtxObjectInactive →
      svcRtxEventFlagsClear (some ef) flags =
        (some ef, toU32 osErrorResource)) ∧
    (∀ ef rt flags options timeout weOk, ef.id = osRtxIdEventFlags →
      flags < 2 ^ 31 → ef.state = osRtxObjectInactive →
      svcRtxEventFlagsWait (some ef) (some rt) flags options timeout weOk =
        ⟨some ef, toU32 osErrorResource, some rt, false⟩) ∧
    (∀ ef, ef.id = osRtxIdEventFlags → ef.state = osRtxObjectInactive →
      svcRtxEventFlagsDelete (some ef) =
        ⟨some ef, osErrorResource, [], false⟩) ∧
    (∀ ef, ef.id = osRtxIdEventFlags → ef.state = osRtxObjectInactive →
      svcRtxEventFlagsGet (some ef) = 0) := by
  refine ⟨fun _ => rfl, fun _ => rfl, fun _ _ _ _ _ => rfl, rfl, rfl,
    ?_, ?_, ?_, ?_, ?_, ?_, ?_, ?_, ?_, ?_, ?_, ?_, ?_⟩
  · intro ef flags hbad
    simp only [svcRtxEventFlagsSet]
    rw [if_pos (Or.inl hbad)]
  · intro ef flags hbad
    simp only [svcRtxEventFlagsClear]
    rw [if_pos (Or.inl hbad)]
  · intro ef rt flags options timeout weOk hbad
    simp only [svcRtxEventFlagsWait]
    rw [if_pos (Or.inl hbad)]
  · intro ef hbad
    simp only [svcRtxEventFlagsDelete]
    rw [if_pos hbad]
  · intro ef hbad
    simp only [svcRtxEventFlagsGet]
    rw [if_pos hbad]
  · intro ef flags h31
    simp only [svcRtxEventFlagsSet]
    rw [if_pos (Or.inr (land_highMask_ne_zero h31))]
  · intro ef flags h31
    simp only [svcRtxEventFlagsClear]
    rw [if_pos (Or.inr (land_highMask_ne_zero h31))]
  · intro ef rt flags options timeout weOk h31
    simp only [svcRtxEventFlagsWait]
    rw [if_pos (Or.inr (land_highMask_ne_zero h31))]
  · intro ef flags hid hfl hin
    simp only [svcRtxEventFlagsSet]
    rw [if_neg (by
      rintro (h | h)
      · exact h hid
      · exact h (land_highMask_eq_zero hfl))]
    rw [if_pos hin]
  · intro ef flags hid hfl hin
    simp only [svcRtxEventFlagsClear]
    rw [if_neg (by
      rintro (h | h)
      · exact h hid
      · exact h (land_highMask_eq_zero hfl))]
    rw [if_pos hin]
  · intro ef rt flags options timeout weOk hid hfl hin
    simp only [svcRtxEventFlagsWait]
    rw [if_neg (by
      rintro (h | h)
      · exact h hid
      · exact h (land_highMask_eq_zero hfl))]
    rw [if_pos hin]
  · intro ef hid hin
    simp only [svcRtxEventFlagsDelete]
    rw [if_neg (fun h => h hid), if_pos hin]
  · intro ef hid hin
    simp only [svcRtxEventFlagsGet]
    rw [if_neg (fun h => h hid), if_pos hin]

/-- Witness for C4 (amended): a wrongly-tagged object is rejected by Set
with the parameter error, and an Inactive object is rejected by Set with
the resource error. -/
theorem C4_validation_amended_witness :
    ((⟨0, 1, 0, 0, []⟩ : os_event_flags_t).id ≠ osRtxIdEventFlags ∧
      svcRtxEventFlagsSet (some ⟨0, 1, 0, 0, []⟩) 1 =
        ⟨some ⟨0, 1, 0, 0, []⟩, toU32 osErrorParameter, []⟩) ∧
    ((⟨3, 0, 0, 0, []⟩ : os_event_flags_t).state = osRtxObjectInactive ∧
      svcRtxEventFlagsSet (some ⟨3, 0, 0, 0, []⟩) 1 =
        ⟨some ⟨3, 0, 0, 0, []⟩, toU32 osErrorResource, []⟩) := by
  refine ⟨⟨by decide, ?_⟩, ⟨rfl, ?_⟩⟩
  · exact C4_validation_amended.2.2.2.2.2.1 ⟨0, 1, 0, 0, []⟩ 1 (by decide)
  · exact C4_validation_amended.2.2.2.2.2.2.2.2.2.2.2.2.2.1
      ⟨3, 0, 0, 0, []⟩ 1 rfl (by norm_num) rfl

/-! ### Claim C5 -/

theorem deleteDrain_eq_map (ts : List os_thread_t) :
    deleteDrain ts = ts.map (fun t => (t.tid, toU32 osErrorResource)) := by
  induction ts with
  | nil => rfl
  | cons t rest ih => simp [deleteDrain, ih]

/-- C5: thread-context Delete of an Active object succeeds, leaves the
object Inactive with an empty wait list, wakes every thread of the wait
list (in order) with the resource-error wait result, and frees the control
block iff it was subsystem-allocated; every subsequent operation on the
deleted object fails with a parameter or resource error (Get returning 0)
and leaves the object unchanged, never succeeding. -/
theorem C5_delete_drains_and_disables (ef : os_event_flags_t)
    (hid : ef.id = osRtxIdEventFlags)
    (hact : ef.state ≠ osRtxObjectInactive) :
    (svcRtxEventFlagsDelete (some ef)).status = osOK ∧
    (svcRtxEventFlagsDelete (some ef)).ef =
      some { ef with state := osRtxObjectInactive, thread_list := [] } ∧
    (svcRtxEventFlagsDelete (some ef)).wakeups =
      ef.thread_list.map (fun t => (t.tid, toU32 osErrorResource)) ∧
    ((svcRtxEventFlagsDelete (some ef)).freed = true ↔
      ef.flags &&& osRtxFlagSystemObject ≠ 0) ∧
    (∀ flags, svcRtxEventFlagsSet
        (some { ef with state := osRtxObjectInactive, thread_list := [] })
        flags =
      ⟨some { ef with state := osRtxObjectInactive, thread_list := [] },
       (if flags &&& not32 ((1 <<< osRtxEventFlagsLimit) - 1) ≠ 0 then
         toU32 osErrorParameter else toU32 osErrorResource), []⟩) ∧
    (∀ flags, svcRtxEventFlagsClear
        (some { ef with state := osRtxObjectInactive, thread_list := [] })
        flags =
      (some { ef with state := osRtxObjectInactive, thread_list := [] },
       if flags &&& not32 ((1 <<< osRtxEventFlagsLimit) - 1) ≠ 0 then
         toU32 osErrorParameter else toU32 osErrorResource)) ∧
    (∀ rt flags options timeout weOk, svcRtxEventFlagsWait
        (some { ef with state := osRtxObjectInactive, thread_list := [] })
        (some rt) flags options timeout weOk =
      ⟨some { ef with state := osRtxObjectInactive, thread_list := [] },
       (if flags &&& not32 ((1 <<< osRtxEventFlagsLimit) - 1) ≠ 0 then
         toU32 osErrorParameter else toU32 osErrorResource),
       some rt, false⟩) ∧
    (svcRtxEventFlagsDelete
        (some { ef with state := osRtxObjectInactive, thread_list := [] }) =
      ⟨some { ef with state := osRtxObjectInactive, thread_list := [] },
       osErrorResource, [], false⟩) ∧
    (svcRtxEventFlagsGet
        (some { ef with state := osRtxObjectInactive, thread_list := [] }) =
      0) := by
  have hrun : svcRtxEventFlagsDelete (some ef) =
      ⟨some { ef with state := osRtxObjectInactive, thread_list := [] },
       osOK, deleteDrain ef.thread_list,
       decide (ef.flags &&& osRtxFlagSystemObject ≠ 0)⟩ := by
    simp only [svcRtxEventFlagsDelete]
    rw [if_neg (fun h => h hid), if_neg hact]
  refine ⟨by rw [hrun], by rw [hrun], ?_, ?_, ?_, ?_, ?_, ?_, ?_⟩
  · rw [hrun]
    exact deleteDrain_eq_map ef.thread_list
  · rw [hrun]
    simp
  · intro flags
    simp only [svcRtxEventFlagsSet]
    by_cases hm : flags &&& not32 ((1 <<< osRtxEventFlagsLimit) - 1) ≠ 0
    · rw [if_pos (Or.inr hm), if_pos hm]
    · rw [if_neg (by
        rintro (h | h)
        · exact h hid
        · exact hm h)]
      rw [if_true, if_neg hm]
  · intro flags
    simp only [svcRtxEventFlagsClear]
    by_cases hm : flags &&& not32 ((1 <<< osRtxEventFlagsLimit) - 1) ≠ 0
    · rw [if_pos (Or.inr hm), if_pos hm]
    · rw [if_neg (by
        rintro (h | h)
        · exact h hid
        · exact hm h)]
      rw [if_true, if_neg hm]
  · intro rt flags options timeout weOk
    simp only [svcRtxEventFlagsWait]
    by_cases hm : flags &&& not32 ((1 <<< osRtxEventFlagsLimit) - 1) ≠ 0
    · rw [if_pos (Or.inr hm), if_pos hm]
    · rw [if_neg (by
        rintro (h | h)
        · exact h hid
        · exact hm h)]
      rw [if_true, if_neg hm]
  · simp only [svcRtxEventFlagsDelete]
    rw [if_neg (fun h => h hid), if_true]
  · simp only [svcRtxEventFlagsGet]
    rw [if_neg (fun h => h hid), if_true]

/-- Witness for C5: an Active subsystem-owned object with two waiters is
deleted; both waiters wake with the resource error and a subsequent Set
fails with the resource error. -/
theorem C5_delete_drains_and_disables_witness :
    (svcRtxEventFlagsDelete
        (some ⟨3, 1, 1, 0, [⟨1, 1, 0⟩, ⟨2, 2, 0⟩]⟩)).wakeups =
      [(1, toU32 osErrorResource), (2, toU32 osErrorResource)] ∧
    (svcRtxEventFlagsDelete
        (some ⟨3, 1, 1, 0, [⟨1, 1, 0⟩, ⟨2, 2, 0⟩]⟩)).freed = true ∧
    svcRtxEventFlagsSet (some ⟨3, 0, 1, 0, []⟩) 1 =
      ⟨some ⟨3, 0, 1, 0, []⟩, toU32 osErrorResource, []⟩ := by
  have h := C5_delete_drains_and_disables ⟨3, 1, 1, 0, [⟨1, 1, 0⟩, ⟨2, 2, 0⟩]⟩
    rfl (by decide)
  refine ⟨?_, ?_, ?_⟩
  · rw [h.2.2.1]
    rfl
  · rw [h.2.2.2.1]
    decide
  · have hs := h.2.2.2.2.1 1
    rw [if_neg (by decide)] at hs
    exact hs

/-! ### Claim C7 -/

theorem accepted_flags_lt {flags : Nat} (h32 : flags < 2 ^ 32)
    (hm : flags &&& not32 ((1 <<< osRtxEventFlagsLimit) - 1) = 0) :
    flags < 2 ^ 31 := by
  rw [highMask_eq, Nat.and_two_pow] at hm
  have h31 : flags.testBit 31 = false := by
    cases hb : flags.testBit 31
    · rfl
    · rw [hb] at hm
      norm_num at hm
  apply Nat.lt_pow_two_of_testBit
  intro i hi
  by_cases hieq : i = 31
  · rw [hieq]
    exact h31
  · exact Nat.testBit_lt_two_pow (lt_of_lt_of_le h32
      (Nat.pow_le_pow_right (by norm_num) (by omega)))

theorem postProcessLoop_ef_le (ts : List os_thread_t)
    (ef : os_event_flags_t) (wk : List (Nat × Nat)) :
    (postProcessLoop ef ts wk).ef.event_flags ≤ ef.event_flags := by
  have h := svcSetLoop_eq_post ts ef 0 wk
  rw [← h.1]
  exact svcSetLoop_ef_le ts ef 0 wk

/-- C7: bit 31 of the stored flag word is zero throughout the subsystem:
creation initializes the flag word to 0, and every operation (the three
mutation primitives, thread-context Set/Clear/Wait/Delete, the
interrupt-context Set and deferred post-processing) maps a flag word below
`2^31` to a flag word below `2^31`, for any `uint32_t` flags argument
(accepted flags being thereby forced below `2^31` by the validation). -/
theorem C7_bit31_invariant :
    (∀ attr allocOk ef1 alloc,
      (svcRtxEventFlagsNew attr allocOk).1 = NewOut.created ef1 alloc →
      ef1.event_flags = 0) ∧
    (∀ ef flags, ef.event_flags < 2 ^ 31 → flags < 2 ^ 31 →
      (EventFlagsSet ef flags).1.event_flags < 2 ^ 31) ∧
    (∀ ef flags, ef.event_flags < 2 ^ 31 →
      (EventFlagsClear ef flags).1.event_flags < 2 ^ 31) ∧
    (∀ ef flags options, ef.event_flags < 2 ^ 31 →
      (EventFlagsCheck ef flags options).1.event_flags < 2 ^ 31) ∧
    (∀ ef flags, ef.event_flags < 2 ^ 31 → flags < 2 ^ 32 →
      ∀ ef1, (svcRtxEventFlagsSet (some ef) flags).ef = some ef1 →
        ef1.event_flags < 2 ^ 31) ∧
    (∀ ef flags, ef.event_flags < 2 ^ 31 →
      ∀ ef1, (svcRtxEventFlagsClear (some ef) flags).1 = some ef1 →
        ef1.event_flags < 2 ^ 31) ∧
    (∀ ef rt flags options timeout weOk, ef.event_flags < 2 ^ 31 →
      ∀ ef1, (svcRtxEventFlagsWait (some ef) (some rt) flags options timeout
          weOk).ef = some ef1 →
        ef1.event_flags < 2 ^ 31) ∧
    (∀ ef, ef.event_flags < 2 ^ 31 →
      ∀ ef1, (svcRtxEventFlagsDelete (some ef)).ef = some ef1 →
        ef1.event_flags < 2 ^ 31) ∧
    (∀ ef flags, ef.event_flags < 2 ^ 31 → flags < 2 ^ 32 →
      ∀ ef1, (isrRtxEventFlagsSet (some ef) flags).ef = some ef1 →
        ef1.event_flags < 2 ^ 31) ∧
    (∀ ef, ef.event_flags < 2 ^ 31 →
      (osRtxEventFlagsPostProcess ef).ef.event_flags < 2 ^ 31) := by
  refine ⟨?_, ?_, ?_, ?_, ?_, ?_, ?_, ?_, ?_, ?_⟩
  · intro attr allocOk ef1 alloc h
    rcases attr with _ | a
    · simp only [svcRtxEventFlagsNew] at h
      split_ifs at h <;>
        first
          | (injection h with h1 h2
             rw [← h1])
          | exact NewOut.noConfusion h
    · rcases hm : a.cb_mem with _ | addr <;>
        simp only [svcRtxEventFlagsNew, hm] at h <;>
        split_ifs at h <;>
          first
            | (injection h with h1 h2
               rw [← h1])
            | exact NewOut.noConfusion h
  · intro ef flags hev hf
    simp only [EventFlagsSet]
    exact Nat.or_lt_two_pow hev hf
  · intro ef flags hev
    simp only [EventFlagsClear]
    exact lt_of_le_of_lt Nat.and_le_left hev
  · intro ef flags options hev
    exact lt_of_le_of_lt (check_ef_le ef flags options) hev
  · intro ef flags hev h32 ef1 h1
    by_cases hv : ef.id ≠ osRtxIdEventFlags ∨
        flags &&& not32 ((1 <<< osRtxEventFlagsLimit) - 1) ≠ 0
    · simp only [svcRtxEventFlagsSet] at h1
      rw [if_pos hv] at h1
      rw [← Option.some.inj h1]
      exact hev
    · push_neg at hv
      obtain ⟨hid', hmz⟩ := hv
      have hid : ef.id = osRtxIdEventFlags := hid'
      have hmz' : flags &&& not32 ((1 <<< osRtxEventFlagsLimit) - 1) = 0 := hmz
      have hf31 : flags < 2 ^ 31 := accepted_flags_lt h32 hmz'
      by_cases hin : ef.state = osRtxObjectInactive
      · simp only [svcRtxEventFlagsSet] at h1
        rw [if_neg (by
          rintro (h | h)
          · exact h hid
          · exact h hmz'), if_pos hin] at h1
        rw [← Option.some.inj h1]
        exact hev
      · rw [svcSet_active ef flags hid hin hf31] at h1
        rw [← Option.some.inj h1]
        exact lt_of_le_of_lt
          (svcSetLoop_ef_le ef.thread_list _ _ [])
          (Nat.or_lt_two_pow hev hf31)
  · intro ef flags hev ef1 h1
    by_cases hv : ef.id ≠ osRtxIdEventFlags ∨
        flags &&& not32 ((1 <<< osRtxEventFlagsLimit) - 1) ≠ 0
    · simp only [svcRtxEventFlagsClear] at h1
      rw [if_pos hv] at h1
      rw [← Option.some.inj h1]
      exact hev
    · by_cases hin : ef.state = osRtxObjectInactive
      · simp only [svcRtxEventFlagsClear] at h1
        rw [if_neg hv, if_pos hin] at h1
        rw [← Option.some.inj h1]
        exact hev
      · simp only [svcRtxEventFlagsClear, EventFlagsClear] at h1
        rw [if_neg hv, if_neg hin] at h1
        rw [← Option.some.inj h1]
        exact lt_of_le_of_lt Nat.and_le_left hev
  · intro ef rt flags options timeout weOk hev ef1 h1
    by_cases hv : ef.id ≠ osRtxIdEventFlags ∨
        flags &&& not32 ((1 <<< osRtxEventFlagsLimit) - 1) ≠ 0
    · simp only [svcRtxEventFlagsWait] at h1
      rw [if_pos hv] at h1
      rw [← Option.some.inj h1]
      exact hev
    · by_cases hin : ef.state = osRtxObjectInactive
      · simp only [svcRtxEventFlagsWait] at h1
        rw [if_neg hv, if_pos hin] at h1
        rw [← Option.some.inj h1]
        exact hev
      · have hle := check_ef_le ef flags options
        simp only [svcRtxEventFlagsWait] at h1
        rw [if_neg hv, if_neg hin] at h1
        by_cases hr : (EventFlagsCheck ef flags options).2 ≠ 0
        · rw [if_pos hr] at h1
          rw [← Option.some.inj h1]
          exact lt_of_le_of_lt hle hev
        · rw [if_neg hr] at h1
          by_cases ht : timeout ≠ 0
          · rw [if_pos ht] at h1
            cases weOk with
            | true =>
              rw [if_pos rfl] at h1
              rw [← Option.some.inj h1]
              exact lt_of_le_of_lt hle hev
            | false =>
              rw [if_neg (by decide)] at h1
              rw [← Option.some.inj h1]
              exact lt_of_le_of_lt hle hev
          · rw [if_neg ht] at h1
            rw [← Option.some.inj h1]
            exact lt_of_le_of_lt hle hev
  · intro ef hev ef1 h1
    by_cases hv : ef.id ≠ osRtxIdEventFlags
    · simp only [svcRtxEventFlagsDelete] at h1
      rw [if_pos hv] at h1
      rw [← Option.some.inj h1]
      exact hev
    · by_cases hin : ef.state = osRtxObjectInactive
      · simp only [svcRtxEventFlagsDelete] at h1
        rw [if_neg hv, if_pos hin] at h1
        rw [← Option.some.inj h1]
        exact hev
      · simp only [svcRtxEventFlagsDelete] at h1
        rw [if_neg hv, if_neg hin] at h1
        rw [← Option.some.inj h1]
        exact hev
  · intro ef flags hev h32 ef1 h1
    by_cases hv : ef.id ≠ osRtxIdEventFlags ∨
        flags &&& not32 ((1 <<< osRtxEventFlagsLimit) - 1) ≠ 0
    · simp only [isrRtxEventFlagsSet] at h1
      rw [if_pos hv] at h1
      rw [← Option.some.inj h1]
      exact hev
    · push_neg at hv
      obtain ⟨hid', hmz⟩ := hv
      have hmz' : flags &&& not32 ((1 <<< osRtxEventFlagsLimit) - 1) = 0 := hmz
      have hf31 : flags < 2 ^ 31 := accepted_flags_lt h32 hmz'
      by_cases hin : ef.state = osRtxObjectInactive
      · simp only [isrRtxEventFlagsSet] at h1
        rw [if_neg (by
          rintro (h | h)
          · exact h hid'
          · exact h hmz'), if_pos hin] at h1
        rw [← Option.some.inj h1]
        exact hev
      · simp only [isrRtxEventFlagsSet, EventFlagsSet] at h1
        rw [if_neg (by
          rintro (h | h)
          · exact h hid'
          · exact h hmz'), if_neg hin] at h1
        rw [← Option.some.inj h1]
        exact Nat.or_lt_two_pow hev hf31
  · intro ef hev
    simp only [osRtxEventFlagsPostProcess]
    by_cases hin : ef.state = osRtxObjectInactive
    · rw [if_pos hin]
      exact hev
    · rw [if_neg hin]
      exact lt_of_le_of_lt (postProcessLoop_ef_le ef.thread_list ef []) hev

/-- Witness for C7: creation yields flag word 0, and a thread-context Set
of `0b11` on an Active object with flag word `0b100` and one waiter
keeps the flag word below `2^31`. -/
theorem C7_bit31_invariant_witness :
    ((svcRtxEventFlagsNew none true).1 =
      NewOut.created ⟨3, 1, 1, 0, []⟩ true ∧
      (⟨3, 1, 1, 0, []⟩ : os_event_flags_t).event_flags = 0) ∧
    ((4 : Nat) < 2 ^ 31 ∧ (3 : Nat) < 2 ^ 32 ∧
      (svcRtxEventFlagsSet
        (some ⟨3, 1, 0, 4, [⟨9, 4, 0⟩]⟩) 3).ef = some ⟨3, 1, 0, 3, []⟩ ∧
      (⟨3, 1, 0, 3, []⟩ : os_event_flags_t).event_flags < 2 ^ 31) := by
  refine ⟨⟨by decide, ?_⟩, by norm_num, by norm_num, by decide, ?_⟩
  · exact C7_bit31_invariant.1 none true ⟨3, 1, 1, 0, []⟩ true (by decide)
  · exact C7_bit31_invariant.2.2.2.2.1 ⟨3, 1, 0, 4, [⟨9, 4, 0⟩]⟩ 3
      (by norm_num) (by norm_num) ⟨3, 1, 0, 3, []⟩ (by decide)

end RtxEvFlags
